import Mathlib

/-!
Verification of the resonance-hunter scripts of the riemann-zeros-analysis
repository.  The Python floating-point values are modelled as rationals; the
Python `%` operator on positive operands is `x - c * ⌊x / c⌋`; file input is
modelled as the per-line outcome of `line.strip()` / `float(line)` (blank,
unparsable, or a parsed value); calls into scipy are kept abstract: each
statistical-test entry of a result dictionary is modelled as a record holding
the exact inputs the script passes to scipy, and the inclusion logic of each
entry follows the source.  A raised `ZeroDivisionError` is modelled with
`Except`.
-/

namespace RiemannZerosAnalysis

/-- Python's `%` on rationals: `x % c = x - c * ⌊x / c⌋` (the semantics of the
float `%` operator for a nonzero modulus). -/
def pymod (x c : ℚ) : ℚ := x - c * ⌊x / c⌋

/-- The minimal circular distance of `γ mod c` to `0` or `c`:
`min (γ % c) (c - γ % c)`, the quantity `min_distance` computed in every
hunter script. -/
def minCircDist (γ c : ℚ) : ℚ := min (pymod γ c) (c - pymod γ c)

/-- Outcome of reading one line of the zeros file: the stripped line is empty,
fails to parse as a float, or parses to a value. -/
inductive Line where
  | blank : Line
  | invalid : Line
  | valid (v : ℚ) : Line
deriving DecidableEq, Repr

/-- Python exceptions relevant to the modelled code paths. -/
inductive PyError where
  | zeroDivisionError : PyError
deriving DecidableEq, Repr

/-- A Python float that is either a finite value or `float('inf')`. -/
inductive PyVal where
  | val (q : ℚ) : PyVal
  | inf : PyVal
deriving DecidableEq, Repr

namespace zvt_alpha_hunter

/-- `FINE_STRUCTURE = 1 / 137.035999084` (zvt_alpha_hunter.py line 26). -/
def FINE_STRUCTURE : ℚ := 1 / 137.035999084

/-- `TOLERANCE_LEVELS = [1e-4, 1e-5, 1e-6, 1e-7, 1e-8, 1e-9]`
(zvt_alpha_hunter.py line 27). -/
def TOLERANCE_LEVELS : List ℚ :=
  [1/10^4, 1/10^5, 1/10^6, 1/10^7, 1/10^8, 1/10^9]

/-- `FRESH_START_ZEROS = 5000` (zvt_alpha_hunter.py line 50). -/
def FRESH_START_ZEROS : ℕ := 5000

/-- The loop of `load_zeros_from_file` (lines 72-82): walk the lines keeping a
1-based line counter, append `(line_num, value)` for each line that parses,
skip blank and invalid lines. -/
def load_zeros_loop : ℕ → List Line → List (ℕ × ℚ)
  | _, [] => []
  | line_num, line :: rest =>
    match line with
    | .valid v => (line_num, v) :: load_zeros_loop (line_num + 1) rest
    | _ => load_zeros_loop (line_num + 1) rest

/-- `load_zeros_from_file` (lines 67-87): on any read error return `[]`,
otherwise run the line loop starting at line number 1. -/
def load_zeros_from_file : Except String (List Line) → List (ℕ × ℚ)
  | .error _ => []
  | .ok lines => load_zeros_loop 1 lines

/-- The file-system state visible to the cache functions: the contents of
`zeta_zeros_cache.pkl`, when the file exists and unpickles to a list. -/
structure FS where
  cache : Option (List (ℕ × ℚ))
deriving DecidableEq, Repr

/-- `save_enhanced_cache` (lines 90-100): pickle the zeros list into the cache
file (the backup step only renames the previous file). -/
def save_enhanced_cache (zeros : List (ℕ × ℚ)) (_fs : FS) : FS :=
  { cache := some zeros }

/-- The cache-miss tail of `load_enhanced_cache` (lines 113-117): load from the
zeros file; if nonempty, save the full list and return its first
`FRESH_START_ZEROS` entries; otherwise return `[]`. -/
def load_fresh (fs : FS) (file : Except String (List Line)) :
    List (ℕ × ℚ) × FS :=
  let zeros := load_zeros_from_file file
  if zeros ≠ [] then
    (if 0 < FRESH_START_ZEROS then zeros.take FRESH_START_ZEROS else zeros,
     save_enhanced_cache zeros fs)
  else ([], fs)

/-- `load_enhanced_cache` (lines 103-117): if the cache file holds a nonempty
list return it, otherwise fall back to the zeros file. -/
def load_enhanced_cache (fs : FS) (file : Except String (List Line)) :
    List (ℕ × ℚ) × FS :=
  match fs.cache with
  | some data => if 0 < data.length then (data, fs) else load_fresh fs file
  | none => load_fresh fs file

/-- The inner double-loop body of `find_multi_tolerance_resonances`
(lines 127-132): collect `(n, gamma, min_distance, tolerance)` for each zero
whose minimal circular distance is below the tolerance. -/
def resonances_at (zeros : List (ℕ × ℚ)) (const_value tolerance : ℚ) :
    List (ℕ × ℚ × ℚ × ℚ) :=
  zeros.filterMap fun z =>
    if minCircDist z.2 const_value < tolerance then
      some (z.1, z.2, minCircDist z.2 const_value, tolerance)
    else none

/-- `find_multi_tolerance_resonances` (lines 120-134): for each named constant
and each tolerance level, the list of resonances. -/
def find_multi_tolerance_resonances (zeros : List (ℕ × ℚ))
    (constants_dict : List (String × ℚ)) :
    List (String × List (ℚ × List (ℕ × ℚ × ℚ × ℚ))) :=
  constants_dict.map fun cv =>
    (cv.1, TOLERANCE_LEVELS.map fun tolerance =>
      (tolerance, resonances_at zeros cv.2 tolerance))

/-- The `basic_stats` entry of `enhanced_statistical_analysis` (lines 143-151). -/
structure BasicStats where
  total_zeros : ℕ
  resonant_count : ℕ
  expected_random : ℚ
  resonance_rate : ℚ
  significance_factor : PyVal
deriving DecidableEq, Repr

/-- The `chi2_test` entry (lines 152-160); the scipy p-value is abstracted,
the statistic and the decision `chi2_stat > 3.841` are kept. -/
structure Chi2Test where
  statistic : ℚ
  critical_value_05 : ℚ
  significant : Bool
deriving DecidableEq, Repr

/-- The `binomial_test` entry (lines 161-175): the inputs the script passes to
scipy's binomial test, its p-value abstracted. -/
structure BinomialTest where
  k : ℕ
  n : ℕ
  p_expected : ℚ
deriving DecidableEq, Repr

/-- The `poisson_test` entry (lines 176-180): the inputs
`(resonant_count - 1, expected_random)` of the Poisson cdf, its p-value
abstracted. -/
structure PoissonTest where
  k : ℤ
  mu : ℚ
deriving DecidableEq, Repr

/-- The `ks_uniformity` entry (lines 181-189): the quality sample and the
tolerance handed to `kstest`, the statistic and p-value abstracted. -/
structure KSTest where
  qualities : List ℚ
  tolerance : ℚ
deriving DecidableEq, Repr

/-- The `significance_factor` value of line 149:
`resonant_count / expected_random if expected_random > 0 else float('inf')`. -/
def significance_factor (resonant_count : ℕ) (expected_random : ℚ) : PyVal :=
  if 0 < expected_random then .val ((resonant_count : ℚ) / expected_random)
  else .inf

/-- The result dictionary of `enhanced_statistical_analysis`; keys the script
sets only conditionally are `Option` fields (`none` models an absent key).
The `anderson_darling`, `runs_test` and `autocorrelation` entries keep only
the data the script feeds them (the quality sample, the sorted index list,
the index-sorted quality sample). -/
structure StatResults where
  basic_stats : BasicStats
  chi2_test : Option Chi2Test
  binomial_test : Option BinomialTest
  poisson_test : Option PoissonTest
  ks_uniformity : Option KSTest
  anderson_darling : Option (List ℚ)
  runs_test : Option (List ℕ)
  autocorrelation : Option (List ℚ)
deriving DecidableEq, Repr

/-- `enhanced_statistical_analysis` (lines 137-246): `None` for empty inputs;
then `expected_random = total_zeros * (2 * tolerance / constant_value)` is
computed, raising `ZeroDivisionError` when `constant_value` is zero; the
result dictionary always carries `basic_stats`, `binomial_test` and
`poisson_test`, carries `chi2_test` iff `expected_random >= 5`,
`ks_uniformity` and `anderson_darling` iff more than 10 resonances,
`runs_test` iff more than 20 resonances (and more than 10 gaps),
`autocorrelation` iff more than 30 resonances (and more than 3 qualities). -/
def enhanced_statistical_analysis (zeros : List (ℕ × ℚ))
    (resonances : List (ℕ × ℚ × ℚ × ℚ)) (constant_value tolerance : ℚ) :
    Except PyError (Option StatResults) :=
  if zeros.length = 0 ∨ resonances.length = 0 then .ok none
  else if constant_value = 0 then .error .zeroDivisionError
  else
    .ok (some
      { basic_stats :=
          { total_zeros := zeros.length
            resonant_count := resonances.length
            expected_random :=
              (zeros.length : ℚ) * (2 * tolerance / constant_value)
            resonance_rate := (resonances.length : ℚ) / (zeros.length : ℚ)
            significance_factor :=
              significance_factor resonances.length
                ((zeros.length : ℚ) * (2 * tolerance / constant_value)) }
        chi2_test :=
          if 5 ≤ (zeros.length : ℚ) * (2 * tolerance / constant_value) then
            some
              { statistic :=
                  ((resonances.length : ℚ) -
                      (zeros.length : ℚ) * (2 * tolerance / constant_value))^2 /
                    ((zeros.length : ℚ) * (2 * tolerance / constant_value))
                critical_value_05 := 3.841
                significant :=
                  decide ((3.841 : ℚ) <
                    ((resonances.length : ℚ) -
                        (zeros.length : ℚ) * (2 * tolerance / constant_value))^2 /
                      ((zeros.length : ℚ) * (2 * tolerance / constant_value))) }
          else none
        binomial_test :=
          some { k := resonances.length, n := zeros.length
                 p_expected := 2 * tolerance / constant_value }
        poisson_test :=
          some { k := (resonances.length : ℤ) - 1
                 mu := (zeros.length : ℚ) * (2 * tolerance / constant_value) }
        ks_uniformity :=
          if 10 < resonances.length then
            some { qualities := resonances.map fun r => r.2.2.1
                   tolerance := tolerance }
          else none
        anderson_darling :=
          if 10 < resonances.length then
            some (resonances.map fun r => r.2.2.1)
          else none
        runs_test :=
          if 20 < resonances.length ∧ 10 < resonances.length - 1 then
            some ((resonances.map fun r => r.1).insertionSort (· ≤ ·))
          else none
        autocorrelation :=
          if 30 < resonances.length ∧ 3 < resonances.length then
            some ((resonances.insertionSort fun a b => a.1 ≤ b.1).map
              fun r => r.2.2.1)
          else none })

end zvt_alpha_hunter

namespace plank_resonance_hunter

/-- `TOLERANCE_LEVELS = [1e-6, 1e-7, 1e-8, 1e-9, 1e-10, 1e-11]`
(plank_resonance_hunter.py line 57); these are relative tolerances. -/
def TOLERANCE_LEVELS : List ℚ :=
  [1/10^6, 1/10^7, 1/10^8, 1/10^9, 1/10^10, 1/10^11]

/-- The inner double-loop body of `find_multi_tolerance_resonances` in
plank_resonance_hunter.py (lines 153-160): the relative error
`min_distance / const_value` is thresholded, and resonances are the
5-tuples `(n, gamma, min_distance, tolerance, relative_error)`. -/
def resonances_at (zeros : List (ℕ × ℚ)) (const_value tolerance : ℚ) :
    List (ℕ × ℚ × ℚ × ℚ × ℚ) :=
  zeros.filterMap fun z =>
    if minCircDist z.2 const_value / const_value < tolerance then
      some (z.1, z.2, minCircDist z.2 const_value, tolerance,
        minCircDist z.2 const_value / const_value)
    else none

/-- `find_multi_tolerance_resonances` of plank_resonance_hunter.py
(lines 146-161). -/
def find_multi_tolerance_resonances (zeros : List (ℕ × ℚ))
    (constants_dict : List (String × ℚ)) :
    List (String × List (ℚ × List (ℕ × ℚ × ℚ × ℚ × ℚ))) :=
  constants_dict.map fun cv =>
    (cv.1, TOLERANCE_LEVELS.map fun tolerance =>
      (tolerance, resonances_at zeros cv.2 tolerance))

end plank_resonance_hunter

namespace scanner_zeta

/-- The `binomial_test` entry of scanner_zeta.py (lines 300-330): always set,
either from the scipy call when `0 <= p_expected <= 1`, or with the
`invalid_probability` marker otherwise; p-values abstracted to the scipy
inputs. -/
structure BinomialTest where
  k : ℕ
  n : ℕ
  p_expected : ℚ
  invalid_probability : Bool
deriving DecidableEq, Repr

/-- The result dictionary of `enhanced_statistical_analysis` in
scanner_zeta.py: `basic_stats` and `binomial_test` always, `chi2_test` iff
`expected_random >= 5`, `poisson_test` iff `expected_random > 0`. -/
structure StatResults where
  basic_stats : zvt_alpha_hunter.BasicStats
  chi2_test : Option zvt_alpha_hunter.Chi2Test
  binomial_test : BinomialTest
  poisson_test : Option zvt_alpha_hunter.PoissonTest
deriving DecidableEq, Repr

/-- `enhanced_statistical_analysis` of scanner_zeta.py (lines 269-347):
after the emptiness check, `expected_random` is computed by dividing by
`constant_value` (raising `ZeroDivisionError` when it is zero), and only
then does the validation guard `constant_value <= 0 or tolerance <= 0`
return `None`. -/
def enhanced_statistical_analysis (zeros : List (ℕ × ℚ))
    (resonances : List (ℕ × ℚ × ℚ × ℚ)) (constant_value tolerance : ℚ) :
    Except PyError (Option StatResults) :=
  if zeros.length = 0 ∨ resonances.length = 0 then .ok none
  else if constant_value = 0 then .error .zeroDivisionError
  else if constant_value ≤ 0 ∨ tolerance ≤ 0 then .ok none
  else
    .ok (some
      { basic_stats :=
          { total_zeros := zeros.length
            resonant_count := resonances.length
            expected_random :=
              (zeros.length : ℚ) * (2 * tolerance / constant_value)
            resonance_rate := (resonances.length : ℚ) / (zeros.length : ℚ)
            significance_factor :=
              zvt_alpha_hunter.significance_factor resonances.length
                ((zeros.length : ℚ) * (2 * tolerance / constant_value)) }
        chi2_test :=
          if 5 ≤ (zeros.length : ℚ) * (2 * tolerance / constant_value) then
            some
              { statistic :=
                  ((resonances.length : ℚ) -
                      (zeros.length : ℚ) * (2 * tolerance / constant_value))^2 /
                    ((zeros.length : ℚ) * (2 * tolerance / constant_value))
                critical_value_05 := 3.841
                significant :=
                  decide ((3.841 : ℚ) <
                    ((resonances.length : ℚ) -
                        (zeros.length : ℚ) * (2 * tolerance / constant_value))^2 /
                      ((zeros.length : ℚ) * (2 * tolerance / constant_value))) }
          else none
        binomial_test :=
          { k := resonances.length, n := zeros.length
            p_expected := 2 * tolerance / constant_value
            invalid_probability :=
              !decide ((0 : ℚ) ≤ 2 * tolerance / constant_value ∧
                2 * tolerance / constant_value ≤ 1) }
        poisson_test :=
          if 0 < (zeros.length : ℚ) * (2 * tolerance / constant_value) then
            some { k := (resonances.length : ℤ) - 1
                   mu := (zeros.length : ℚ) * (2 * tolerance / constant_value) }
          else none })

end scanner_zeta

namespace montecarlo

/-- The dictionary returned by `find_best_resonance` (montecarlo.py
lines 128-135). -/
structure BestResonance where
  quality : ℚ
  error_percent : ℚ
  zero_index : ℕ
  gamma : ℚ
deriving DecidableEq, Repr

/-- The loop of `find_best_resonance` (montecarlo.py lines 117-126): the
running state is `none` for `(float('inf'), None)` and `some (q, n, γ)` once a
best zero is held; a zero replaces the state when its minimal circular
distance is strictly smaller (any finite distance beats `float('inf')`). -/
def best_scan (const_value : ℚ) :
    List (ℕ × ℚ) → Option (ℚ × ℕ × ℚ) → Option (ℚ × ℕ × ℚ)
  | [], st => st
  | z :: rest, none =>
    best_scan const_value rest (some (minCircDist z.2 const_value, z.1, z.2))
  | z :: rest, some (q, bn, bγ) =>
    if minCircDist z.2 const_value < q then
      best_scan const_value rest (some (minCircDist z.2 const_value, z.1, z.2))
    else best_scan const_value rest (some (q, bn, bγ))

/-- `find_best_resonance` (montecarlo.py lines 115-136): scan the zeros for
the smallest minimal circular distance; if a best zero was found, report its
quality, relative error in percent, index and value; otherwise `None`. -/
def find_best_resonance (zeros : List (ℕ × ℚ)) (constant_value : ℚ) :
    Option BestResonance :=
  match best_scan constant_value zeros none with
  | none => none
  | some (q, n, γ) =>
    some { quality := q, error_percent := q / constant_value * 100
           zero_index := n, gamma := γ }

end montecarlo

/-- The result record `enhanced_statistical_analysis` produces on the sample
input of one zero `(1, 1)` and one resonance `(1, 1, 0, 1)` with constant 1
and tolerance 1. -/
def statResultsExample : zvt_alpha_hunter.StatResults :=
  { basic_stats :=
      { total_zeros := 1, resonant_count := 1, expected_random := 2,
        resonance_rate := 1, significance_factor := PyVal.val (1/2) }
    chi2_test := none
    binomial_test := some { k := 1, n := 1, p_expected := 2 }
    poisson_test := some { k := 0, mu := 2 }
    ks_uniformity := none
    anderson_darling := none
    runs_test := none
    autocorrelation := none }

namespace zvt_alpha_hunter

/-- The line loop of `load_zeros_from_file` produces exactly the
`(line number, value)` pairs of the parsed lines, in file order. -/
lemma load_zeros_loop_enumFrom (lines : List Line) :
    ∀ k, load_zeros_loop k lines =
      (lines.enumFrom k).filterMap fun p =>
        match p.2 with
        | Line.valid v => some (p.1, v)
        | _ => none := by
  induction lines with
  | nil => intro k; rfl
  | cons l rest ih =>
    intro k
    cases l <;>
      simp [load_zeros_loop, List.enumFrom, ih (k+1), List.filterMap_cons]

/-- Every index produced by the line loop is at least the starting counter. -/
lemma load_zeros_loop_le (lines : List Line) :
    ∀ k, ∀ p ∈ load_zeros_loop k lines, k ≤ p.1 := by
  induction lines with
  | nil => intro k p hp; simp [load_zeros_loop] at hp
  | cons l rest ih =>
    intro k p hp
    cases l with
    | valid v =>
      simp only [load_zeros_loop] at hp
      rcases List.mem_cons.mp hp with h | h
      · subst h; exact le_refl _
      · exact le_trans (Nat.le_succ k) (ih (k+1) p h)
    | blank => exact le_trans (Nat.le_succ k) (ih (k+1) p hp)
    | invalid => exact le_trans (Nat.le_succ k) (ih (k+1) p hp)

/-- The indices produced by the line loop are strictly increasing. -/
lemma load_zeros_loop_sorted (lines : List Line) :
    ∀ k, List.Pairwise (· < ·) ((load_zeros_loop k lines).map Prod.fst) := by
  induction lines with
  | nil => intro k; simp [load_zeros_loop]
  | cons l rest ih =>
    intro k
    cases l with
    | valid v =>
      simp only [load_zeros_loop, List.map_cons]
      refine List.pairwise_cons.mpr ⟨?_, ih (k+1)⟩
      intro b hb
      rcases List.mem_map.mp hb with ⟨p, hp, rfl⟩
      exact lt_of_lt_of_le (Nat.lt_succ_self k)
        (load_zeros_loop_le rest (k+1) p hp)
    | blank => exact ih (k+1)
    | invalid => exact ih (k+1)

/-- The indices of any list `load_zeros_from_file` returns are strictly
increasing. -/
lemma load_zeros_from_file_sorted (file : Except String (List Line)) :
    List.Pairwise (· < ·) ((load_zeros_from_file file).map Prod.fst) := by
  cases file with
  | error e => simp [load_zeros_from_file]
  | ok lines => exact load_zeros_loop_sorted lines 1

/-- Loading a file of `m` identical parsable lines yields the pairs
`(k, v), (k+1, v), …`. -/
lemma load_zeros_loop_replicate (v : ℚ) :
    ∀ m k, load_zeros_loop k (List.replicate m (Line.valid v)) =
      (List.range' k m).map fun i => (i, v) := by
  intro m
  induction m with
  | zero => intro k; rfl
  | succ m ih =>
    intro k
    simp [List.replicate, load_zeros_loop, List.range', ih (k+1)]

end zvt_alpha_hunter

/-- Invariant of `montecarlo.best_scan` started from a held best zero:
the scan returns a held zero of minimal distance among the start and the
scanned zeros, and it never invents a zero. -/
lemma best_scan_some_spec (c : ℚ) (zeros : List (ℕ × ℚ)) :
    ∀ (q : ℚ) (n : ℕ) (γ : ℚ),
      ∃ q2 n2 γ2,
        montecarlo.best_scan c zeros (some (q, n, γ)) = some (q2, n2, γ2)
        ∧ q2 ≤ q
        ∧ (∀ z ∈ zeros, q2 ≤ minCircDist z.2 c)
        ∧ ((q2 = q ∧ n2 = n ∧ γ2 = γ)
            ∨ ((n2, γ2) ∈ zeros ∧ q2 = minCircDist γ2 c)) := by
  induction zeros with
  | nil =>
    intro q n γ
    exact ⟨q, n, γ, rfl, le_refl q, by simp, Or.inl ⟨rfl, rfl, rfl⟩⟩
  | cons z rest ih =>
    intro q n γ
    by_cases hd : minCircDist z.2 c < q
    · obtain ⟨q2, n2, γ2, heq, hle, hbound, hcase⟩ :=
        ih (minCircDist z.2 c) z.1 z.2
      refine ⟨q2, n2, γ2, ?_, le_trans hle (le_of_lt hd), ?_, ?_⟩
      · rw [montecarlo.best_scan, if_pos hd]
        exact heq
      · intro w hw
        rcases List.mem_cons.mp hw with h | h
        · subst h; exact hle
        · exact hbound w h
      · rcases hcase with ⟨hq, hn, hγ⟩ | ⟨hmem, hq⟩
        · refine Or.inr ⟨?_, ?_⟩
          · subst hn; subst hγ; simp
          · subst hγ; rw [hq]
        · exact Or.inr ⟨List.mem_cons_of_mem z hmem, hq⟩
    · obtain ⟨q2, n2, γ2, heq, hle, hbound, hcase⟩ := ih q n γ
      refine ⟨q2, n2, γ2, ?_, hle, ?_, ?_⟩
      · rw [montecarlo.best_scan, if_neg hd]
        exact heq
      · intro w hw
        rcases List.mem_cons.mp hw with h | h
        · subst h; exact le_trans hle (le_of_not_lt hd)
        · exact hbound w h
      · rcases hcase with ⟨hq, hn, hγ⟩ | ⟨hmem, hq⟩
        · exact Or.inl ⟨hq, hn, hγ⟩
        · exact Or.inr ⟨List.mem_cons_of_mem z hmem, hq⟩

open zvt_alpha_hunter

/-- C1: for every constant `c > 0` of the constants dictionary and every
tolerance `t` of `TOLERANCE_LEVELS`, `find_multi_tolerance_resonances`
collects exactly the zeros whose minimal circular distance
`min (γ mod c) (c - γ mod c)` is strictly below `t`, recording that distance
as the resonance quality, and no other zero. -/
theorem find_multi_tolerance_resonances_collects_exactly
    (zeros : List (ℕ × ℚ)) (constants_dict : List (String × ℚ))
    (name : String) (c : ℚ) (n : ℕ) (γ d t2 t : ℚ)
    (hmem : (name, c) ∈ constants_dict) (hc : 0 < c)
    (ht : t ∈ TOLERANCE_LEVELS) :
    (name, TOLERANCE_LEVELS.map fun s => (s, resonances_at zeros c s)) ∈
        find_multi_tolerance_resonances zeros constants_dict
    ∧ ((n, γ, d, t2) ∈ resonances_at zeros c t ↔
        (n, γ) ∈ zeros ∧ minCircDist γ c < t ∧ d = minCircDist γ c ∧ t2 = t) := by
  constructor
  · exact List.mem_map_of_mem _ hmem
  · constructor
    · intro h
      rcases List.mem_filterMap.mp h with ⟨z, hz, heq⟩
      by_cases hlt : minCircDist z.2 c < t
      · rw [if_pos hlt] at heq
        simp only [Option.some.injEq, Prod.mk.injEq] at heq
        obtain ⟨h1, h2, h3, h4⟩ := heq
        subst h1; subst h2; subst h4
        exact ⟨by simpa using hz, hlt, h3.symm, rfl⟩
      · rw [if_neg hlt] at heq
        exact absurd heq (by simp)
    · rintro ⟨hmem2, hlt, rfl, rfl⟩
      refine List.mem_filterMap.mpr ⟨(n, γ), hmem2, ?_⟩
      rw [if_pos hlt]

/-- Witness for C1 at the dictionary `[("c", 2)]`, tolerance `1e-6` and the
single zero `(1, 1/2000000)`, whose distance `1/2000000` is below `1e-6`. -/
theorem find_multi_tolerance_resonances_collects_exactly_witness :
    (("c", (2:ℚ)) ∈ [("c", (2:ℚ))] ∧ (0:ℚ) < 2 ∧
      (1:ℚ)/10^6 ∈ TOLERANCE_LEVELS)
    ∧ ((("c", TOLERANCE_LEVELS.map fun s =>
          (s, resonances_at [(1, 1/2000000)] 2 s)) ∈
        find_multi_tolerance_resonances [(1, 1/2000000)] [("c", (2:ℚ))])
      ∧ (((1:ℕ), (1:ℚ)/2000000, (1:ℚ)/2000000, (1:ℚ)/10^6) ∈
            resonances_at [(1, 1/2000000)] 2 (1/10^6) ↔
          ((1:ℕ), (1:ℚ)/2000000) ∈ [((1:ℕ), (1:ℚ)/2000000)] ∧
            minCircDist (1/2000000) 2 < 1/10^6 ∧
            (1:ℚ)/2000000 = minCircDist (1/2000000) 2 ∧
            (1:ℚ)/10^6 = 1/10^6)) :=
  ⟨⟨by simp, by norm_num, by simp [TOLERANCE_LEVELS]⟩,
    find_multi_tolerance_resonances_collects_exactly
      [(1, 1/2000000)] [("c", (2:ℚ))] "c" 2 1 (1/2000000) (1/2000000)
      (1/10^6) (1/10^6) (by simp) (by norm_num) (by simp [TOLERANCE_LEVELS])⟩

/-- C2: for nonempty inputs and positive constant and tolerance,
`enhanced_statistical_analysis` reports
`significance_factor = resonant_count / expected_random` with
`expected_random = total_zeros * (2 * tolerance / constant)`; a non-positive
`expected_random` is reported as infinity. -/
theorem significance_factor_is_observed_over_expected
    (zeros : List (ℕ × ℚ)) (res : List (ℕ × ℚ × ℚ × ℚ)) (c t e : ℚ)
    (hz : zeros ≠ []) (hr : res ≠ []) (hc : 0 < c) (ht : 0 < t) (he : e ≤ 0) :
    (∃ r : StatResults,
      enhanced_statistical_analysis zeros res c t = Except.ok (some r)
      ∧ r.basic_stats.expected_random = (zeros.length : ℚ) * (2 * t / c)
      ∧ r.basic_stats.significance_factor =
          PyVal.val ((res.length : ℚ) / ((zeros.length : ℚ) * (2 * t / c))))
    ∧ significance_factor res.length e = PyVal.inf := by
  have hzl : zeros.length ≠ 0 := fun h => hz (List.length_eq_zero.mp h)
  have hrl : res.length ≠ 0 := fun h => hr (List.length_eq_zero.mp h)
  have hcne : c ≠ 0 := ne_of_gt hc
  have hexp : 0 < (zeros.length : ℚ) * (2 * t / c) := by
    apply mul_pos
    · exact_mod_cast Nat.pos_of_ne_zero hzl
    · positivity
  constructor
  · unfold enhanced_statistical_analysis
    rw [if_neg (by push_neg; exact ⟨hzl, hrl⟩), if_neg hcne]
    exact ⟨_, rfl, rfl, by simp [significance_factor, hexp]⟩
  · simp [significance_factor, not_lt.mpr he]

/-- Witness for C2 at one zero, one resonance, constant 1, tolerance 1,
and the non-positive expected value 0. -/
theorem significance_factor_is_observed_over_expected_witness :
    (([((1:ℕ), (1:ℚ))] : List (ℕ × ℚ)) ≠ []
      ∧ ([((1:ℕ), (1:ℚ), (0:ℚ), (1:ℚ))] : List (ℕ × ℚ × ℚ × ℚ)) ≠ []
      ∧ (0:ℚ) < 1 ∧ (0:ℚ) < 1 ∧ (0:ℚ) ≤ 0)
    ∧ ((∃ r : StatResults,
        enhanced_statistical_analysis [((1:ℕ), (1:ℚ))]
            [((1:ℕ), (1:ℚ), (0:ℚ), (1:ℚ))] 1 1 = Except.ok (some r)
        ∧ r.basic_stats.expected_random =
            (([((1:ℕ), (1:ℚ))] : List (ℕ × ℚ)).length : ℚ) * (2 * 1 / 1)
        ∧ r.basic_stats.significance_factor =
            PyVal.val
              ((([((1:ℕ), (1:ℚ), (0:ℚ), (1:ℚ))] :
                  List (ℕ × ℚ × ℚ × ℚ)).length : ℚ) /
                ((([((1:ℕ), (1:ℚ))] : List (ℕ × ℚ)).length : ℚ) *
                  (2 * 1 / 1))))
      ∧ significance_factor
          ([((1:ℕ), (1:ℚ), (0:ℚ), (1:ℚ))] : List (ℕ × ℚ × ℚ × ℚ)).length 0 =
          PyVal.inf) :=
  ⟨⟨by simp, by simp, by norm_num, by norm_num, le_refl 0⟩,
    significance_factor_is_observed_over_expected
      [((1:ℕ), (1:ℚ))] [((1:ℕ), (1:ℚ), (0:ℚ), (1:ℚ))] 1 1 0
      (by simp) (by simp) (by norm_num) (by norm_num) (le_refl 0)⟩

/-- C4: whenever `enhanced_statistical_analysis` returns a non-`None`
result, the result always holds the binomial and Poisson tests, holds the
chi-squared test iff `total_zeros * (2 * tolerance / constant) >= 5`, and
holds the Kolmogorov-Smirnov uniformity test iff strictly more than 10
resonances were supplied. -/
theorem statistical_tests_inclusion
    (zeros : List (ℕ × ℚ)) (res : List (ℕ × ℚ × ℚ × ℚ)) (c t : ℚ)
    (r : StatResults)
    (h : enhanced_statistical_analysis zeros res c t = Except.ok (some r)) :
    r.binomial_test.isSome ∧ r.poisson_test.isSome
    ∧ (r.chi2_test.isSome ↔ 5 ≤ (zeros.length : ℚ) * (2 * t / c))
    ∧ (r.ks_uniformity.isSome ↔ 10 < res.length) := by
  by_cases h1 : zeros.length = 0 ∨ res.length = 0
  · unfold enhanced_statistical_analysis at h
    rw [if_pos h1] at h
    exact absurd h (by simp)
  by_cases h2 : c = 0
  · unfold enhanced_statistical_analysis at h
    rw [if_neg h1, if_pos h2] at h
    exact absurd h (by simp)
  unfold enhanced_statistical_analysis at h
  rw [if_neg h1, if_neg h2] at h
  simp only [Except.ok.injEq, Option.some.injEq] at h
  subst h
  refine ⟨rfl, rfl, ?_, ?_⟩
  · by_cases h5 : 5 ≤ (zeros.length : ℚ) * (2 * t / c)
    · simp [h5]
    · simp [h5]
  · by_cases h10 : 10 < res.length
    · simp [h10]
    · simp [h10]

/-- Witness for C4 at one zero, one resonance, constant 1, tolerance 1: the
expected count is 2, so the chi-squared test is absent, as is the K-S test. -/
theorem statistical_tests_inclusion_witness :
    (enhanced_statistical_analysis [((1:ℕ), (1:ℚ))]
        [((1:ℕ), (1:ℚ), (0:ℚ), (1:ℚ))] 1 1 =
      Except.ok (some statResultsExample))
    ∧ (statResultsExample.binomial_test.isSome
      ∧ statResultsExample.poisson_test.isSome
      ∧ (statResultsExample.chi2_test.isSome ↔
          5 ≤ (([((1:ℕ), (1:ℚ))] : List (ℕ × ℚ)).length : ℚ) * (2 * 1 / 1))
      ∧ (statResultsExample.ks_uniformity.isSome ↔
          10 < ([((1:ℕ), (1:ℚ), (0:ℚ), (1:ℚ))] :
            List (ℕ × ℚ × ℚ × ℚ)).length)) := by
  have h : enhanced_statistical_analysis [((1:ℕ), (1:ℚ))]
      [((1:ℕ), (1:ℚ), (0:ℚ), (1:ℚ))] 1 1 =
      Except.ok (some statResultsExample) := by
    norm_num [enhanced_statistical_analysis, significance_factor,
      statResultsExample]
  exact ⟨h, statistical_tests_inclusion _ _ _ _ _ h⟩

/-- C3 counterexample: on the zero `(1, 3/2000000)` with constant 2 and the
shared tolerance level `1e-6`, the alpha hunter selects no index (its absolute
distance `3/2000000` exceeds `1e-6`) while the plank hunter selects index 1
(its relative error `3/4000000` is below `1e-6`); the full per-constant,
per-tolerance index tables of both scripts are computed explicitly. -/
theorem hunters_disagree_counterexample :
    ((1:ℚ)/10^6 ∈ TOLERANCE_LEVELS)
    ∧ ((1:ℚ)/10^6 ∈ plank_resonance_hunter.TOLERANCE_LEVELS)
    ∧ ((find_multi_tolerance_resonances [(1, 3/2000000)] [("c", 2)]).map
          (fun p => (p.1, p.2.map fun q => (q.1, q.2.map fun r => r.1))) =
        [("c", [(1/10^4, [1]), (1/10^5, [1]), (1/10^6, []),
                (1/10^7, []), (1/10^8, []), (1/10^9, [])])])
    ∧ ((plank_resonance_hunter.find_multi_tolerance_resonances
            [(1, 3/2000000)] [("c", 2)]).map
          (fun p => (p.1, p.2.map fun q => (q.1, q.2.map fun r => r.1))) =
        [("c", [(1/10^6, [1]), (1/10^7, []), (1/10^8, []),
                (1/10^9, []), (1/10^10, []), (1/10^11, [])])])
    ∧ ((resonances_at [(1, 3/2000000)] 2 (1/10^6)).map (fun r => r.1) ≠
        (plank_resonance_hunter.resonances_at
          [(1, 3/2000000)] 2 (1/10^6)).map fun r => r.1) := by
  refine ⟨by simp [TOLERANCE_LEVELS],
    by simp [plank_resonance_hunter.TOLERANCE_LEVELS], ?_, ?_, ?_⟩
  · norm_num [find_multi_tolerance_resonances, TOLERANCE_LEVELS,
      resonances_at, minCircDist, pymod, List.filterMap_cons, min_def]
  · norm_num [plank_resonance_hunter.find_multi_tolerance_resonances,
      plank_resonance_hunter.TOLERANCE_LEVELS,
      plank_resonance_hunter.resonances_at, minCircDist, pymod,
      List.filterMap_cons, min_def]
  · norm_num [resonances_at, plank_resonance_hunter.resonances_at,
      minCircDist, pymod, List.filterMap_cons, min_def]

/-- C3 amended: the plank hunter thresholds the relative error
`min_distance / c`, so for every zeros list, constant `c > 0` and tolerance
`t` it selects exactly the indices the alpha hunter selects at tolerance
`t * c`; the two selections coincide as stated only in special cases such as
`c = 1`. -/
theorem plank_selects_relative_error
    (zeros : List (ℕ × ℚ)) (c t : ℚ) (hc : 0 < c) :
    (plank_resonance_hunter.resonances_at zeros c t).map (fun r => r.1) =
      (resonances_at zeros c (t * c)).map fun r => r.1 := by
  induction zeros with
  | nil => rfl
  | cons z rest ih =>
    have hiff : minCircDist z.2 c / c < t ↔ minCircDist z.2 c < t * c :=
      div_lt_iff₀ hc
    simp only [plank_resonance_hunter.resonances_at, resonances_at,
      List.filterMap_cons] at ih ⊢
    by_cases hd : minCircDist z.2 c / c < t
    · rw [if_pos hd, if_pos (hiff.mp hd)]
      simpa using ih
    · rw [if_neg hd, if_neg (fun hcon => hd (hiff.mpr hcon))]
      exact ih

/-- Witness for the amended C3 at the zero `(1, 1/2)`, constant 2 and
tolerance `1e-6`. -/
theorem plank_selects_relative_error_witness :
    ((0:ℚ) < 2)
    ∧ ((plank_resonance_hunter.resonances_at [((1:ℕ), (1:ℚ)/2)] 2
          (1/10^6)).map (fun r => r.1) =
        (resonances_at [((1:ℕ), (1:ℚ)/2)] 2 (1/10^6 * 2)).map fun r => r.1) :=
  ⟨by norm_num,
    plank_selects_relative_error [((1:ℕ), (1:ℚ)/2)] 2 (1/10^6) (by norm_num)⟩

/-- C5: every list `load_zeros_from_file` produces has strictly increasing
index components, and the invariant is preserved by saving the list with
`save_enhanced_cache` and reloading with `load_enhanced_cache`. -/
theorem loaded_zeros_sorted (file file2 : Except String (List Line))
    (fs : FS) :
    List.Pairwise (· < ·) ((load_zeros_from_file file).map Prod.fst)
    ∧ List.Pairwise (· < ·)
        (((load_enhanced_cache
            (save_enhanced_cache (load_zeros_from_file file) fs)
            file2).1).map Prod.fst) := by
  refine ⟨load_zeros_from_file_sorted file, ?_⟩
  by_cases h : load_zeros_from_file file = []
  · rw [h]
    simp only [load_enhanced_cache, save_enhanced_cache, List.length_nil]
    norm_num
    unfold load_fresh
    by_cases h2 : load_zeros_from_file file2 = []
    · simp [h2]
    · simp only [h2, ne_eq, not_false_eq_true, if_true, FRESH_START_ZEROS]
      norm_num
      exact (load_zeros_from_file_sorted file2).sublist
        (List.take_sublist _ _)
  · have hlen : 0 < (load_zeros_from_file file).length :=
      List.length_pos.mpr h
    simp [load_enhanced_cache, save_enhanced_cache, hlen,
      load_zeros_from_file_sorted file]

/-- C6: `load_zeros_from_file` is total: a read failure yields `[]`, and an
accessible file yields exactly the `(line number, value)` pairs of the lines
that parse as floats, in file order, the blank and unparsable lines
contributing nothing. -/
theorem load_zeros_from_file_total (e : String) (lines : List Line) :
    load_zeros_from_file (Except.error e) = []
    ∧ load_zeros_from_file (Except.ok lines) =
        (lines.enumFrom 1).filterMap fun p =>
          match p.2 with
          | Line.valid v => some (p.1, v)
          | _ => none :=
  ⟨rfl, load_zeros_loop_enumFrom lines 1⟩

/-- C7: saving a nonempty zeros list with `save_enhanced_cache` and reloading
with `load_enhanced_cache` returns exactly the same list. -/
theorem cache_roundtrip (zs : List (ℕ × ℚ)) (fs : FS)
    (file : Except String (List Line)) (hz : zs ≠ []) :
    (load_enhanced_cache (save_enhanced_cache zs fs) file).1 = zs := by
  have h : 0 < zs.length := List.length_pos.mpr hz
  simp [load_enhanced_cache, save_enhanced_cache, h]

/-- Witness for C7 at the one-element list `[(1, 1)]`. -/
theorem cache_roundtrip_witness :
    ([((1:ℕ), (1:ℚ))] ≠ []) ∧
      (load_enhanced_cache (save_enhanced_cache [((1:ℕ), (1:ℚ))] ⟨none⟩)
        (Except.error "")).1 = [((1:ℕ), (1:ℚ))] :=
  ⟨by simp, cache_roundtrip [((1:ℕ), (1:ℚ))] ⟨none⟩ (Except.error "")
    (by simp)⟩

/-- C9: with an absent cache and a zeros file holding more than
`FRESH_START_ZEROS` parsable lines, `load_enhanced_cache` writes the complete
list to the cache but returns only its first `FRESH_START_ZEROS` entries; the
next call returns the full cached list, so the two consecutive calls return
lists of different lengths. -/
theorem fresh_load_truncates (file : Except String (List Line))
    (hne : load_zeros_from_file file ≠ [])
    (hlen : FRESH_START_ZEROS < (load_zeros_from_file file).length) :
    (load_enhanced_cache ⟨none⟩ file).1 =
        (load_zeros_from_file file).take FRESH_START_ZEROS
    ∧ (load_enhanced_cache ⟨none⟩ file).2.cache =
        some (load_zeros_from_file file)
    ∧ (load_enhanced_cache (load_enhanced_cache ⟨none⟩ file).2 file).1 =
        load_zeros_from_file file
    ∧ (load_enhanced_cache ⟨none⟩ file).1.length = FRESH_START_ZEROS
    ∧ (load_enhanced_cache ⟨none⟩ file).1.length ≠
        (load_enhanced_cache (load_enhanced_cache ⟨none⟩ file).2
          file).1.length := by
  have hpos : 0 < (load_zeros_from_file file).length := List.length_pos.mpr hne
  have h1 : (load_enhanced_cache ⟨none⟩ file).1 =
      (load_zeros_from_file file).take FRESH_START_ZEROS := by
    simp [load_enhanced_cache, load_fresh, save_enhanced_cache, hne,
      FRESH_START_ZEROS]
  have h2 : (load_enhanced_cache ⟨none⟩ file).2.cache =
      some (load_zeros_from_file file) := by
    simp [load_enhanced_cache, load_fresh, save_enhanced_cache, hne]
  have h3 : (load_enhanced_cache (load_enhanced_cache ⟨none⟩ file).2 file).1 =
      load_zeros_from_file file := by
    have hs : (load_enhanced_cache ⟨none⟩ file).2 =
        ⟨some (load_zeros_from_file file)⟩ := by
      simp [load_enhanced_cache, load_fresh, save_enhanced_cache, hne]
    rw [hs]
    simp [load_enhanced_cache, hpos]
  have h4 : (load_enhanced_cache ⟨none⟩ file).1.length = FRESH_START_ZEROS := by
    rw [h1, List.length_take]
    exact Nat.min_eq_left (le_of_lt hlen)
  refine ⟨h1, h2, h3, h4, ?_⟩
  rw [h4, h3]
  exact Nat.ne_of_lt hlen

/-- Witness for C9 at a file of 5001 identical parsable lines. -/
theorem fresh_load_truncates_witness :
    (load_zeros_from_file (Except.ok (List.replicate 5001 (Line.valid 1))) ≠ []
      ∧ FRESH_START_ZEROS <
        (load_zeros_from_file
          (Except.ok (List.replicate 5001 (Line.valid 1)))).length)
    ∧ ((load_enhanced_cache ⟨none⟩
          (Except.ok (List.replicate 5001 (Line.valid 1)))).1 =
        (load_zeros_from_file
          (Except.ok (List.replicate 5001 (Line.valid 1)))).take
          FRESH_START_ZEROS
      ∧ (load_enhanced_cache ⟨none⟩
          (Except.ok (List.replicate 5001 (Line.valid 1)))).2.cache =
        some (load_zeros_from_file
          (Except.ok (List.replicate 5001 (Line.valid 1))))
      ∧ (load_enhanced_cache
          (load_enhanced_cache ⟨none⟩
            (Except.ok (List.replicate 5001 (Line.valid 1)))).2
          (Except.ok (List.replicate 5001 (Line.valid 1)))).1 =
        load_zeros_from_file (Except.ok (List.replicate 5001 (Line.valid 1)))
      ∧ (load_enhanced_cache ⟨none⟩
          (Except.ok (List.replicate 5001 (Line.valid 1)))).1.length =
        FRESH_START_ZEROS
      ∧ (load_enhanced_cache ⟨none⟩
          (Except.ok (List.replicate 5001 (Line.valid 1)))).1.length ≠
        (load_enhanced_cache
          (load_enhanced_cache ⟨none⟩
            (Except.ok (List.replicate 5001 (Line.valid 1)))).2
          (Except.ok (List.replicate 5001 (Line.valid 1)))).1.length) := by
  have heq : load_zeros_from_file
      (Except.ok (List.replicate 5001 (Line.valid 1))) =
      (List.range' 1 5001).map fun i => (i, (1:ℚ)) := by
    show load_zeros_loop 1 (List.replicate 5001 (Line.valid 1)) = _
    exact load_zeros_loop_replicate 1 5001 1
  have hne : load_zeros_from_file
      (Except.ok (List.replicate 5001 (Line.valid 1))) ≠ [] := by
    rw [heq]
    simp
  have hlen : FRESH_START_ZEROS <
      (load_zeros_from_file
        (Except.ok (List.replicate 5001 (Line.valid 1)))).length := by
    rw [heq]
    simp [FRESH_START_ZEROS]
  exact ⟨⟨hne, hlen⟩,
    fresh_load_truncates (Except.ok (List.replicate 5001 (Line.valid 1)))
      hne hlen⟩

/-- C8: on a nonempty zeros list and a constant `c > 0`,
`find_best_resonance` returns a record whose quality is the minimum over all
zeros of the minimal circular distance, whose index and gamma are a zero
attaining it, and whose error percent is `quality / c * 100`; on the empty
list it returns `None`. -/
theorem find_best_resonance_is_min
    (zeros : List (ℕ × ℚ)) (c : ℚ) (hz : zeros ≠ []) (hc : 0 < c) :
    (∃ r : montecarlo.BestResonance,
      montecarlo.find_best_resonance zeros c = some r
      ∧ (r.zero_index, r.gamma) ∈ zeros
      ∧ r.quality = minCircDist r.gamma c
      ∧ (∀ z ∈ zeros, r.quality ≤ minCircDist z.2 c)
      ∧ r.error_percent = r.quality / c * 100)
    ∧ montecarlo.find_best_resonance [] c = none := by
  refine ⟨?_, rfl⟩
  match zeros, hz with
  | z :: rest, _ =>
    obtain ⟨q2, n2, γ2, heq, hle, hbound, hcase⟩ :=
      best_scan_some_spec c rest (minCircDist z.2 c) z.1 z.2
    have hscan : montecarlo.best_scan c (z :: rest) none =
        some (q2, n2, γ2) := by
      rw [montecarlo.best_scan]
      exact heq
    refine ⟨⟨q2, q2 / c * 100, n2, γ2⟩, ?_, ?_, ?_, ?_, rfl⟩
    · rw [montecarlo.find_best_resonance, hscan]
    · rcases hcase with ⟨hq, hn, hγ⟩ | ⟨hmem, hq⟩
      · subst hn; subst hγ; simp
      · exact List.mem_cons_of_mem z hmem
    · rcases hcase with ⟨hq, hn, hγ⟩ | ⟨hmem, hq⟩
      · subst hq; subst hγ; rfl
      · exact hq
    · intro w hw
      rcases List.mem_cons.mp hw with h | h
      · subst h; exact hle
      · exact hbound w h

/-- Witness for C8 at the zeros `(1, 1/3)` and `(2, 1/5)` with constant 1. -/
theorem find_best_resonance_is_min_witness :
    (([((1:ℕ), (1:ℚ)/3), ((2:ℕ), (1:ℚ)/5)] : List (ℕ × ℚ)) ≠ [] ∧ (0:ℚ) < 1)
    ∧ ((∃ r : montecarlo.BestResonance,
        montecarlo.find_best_resonance
            [((1:ℕ), (1:ℚ)/3), ((2:ℕ), (1:ℚ)/5)] 1 = some r
        ∧ (r.zero_index, r.gamma) ∈ [((1:ℕ), (1:ℚ)/3), ((2:ℕ), (1:ℚ)/5)]
        ∧ r.quality = minCircDist r.gamma 1
        ∧ (∀ z ∈ [((1:ℕ), (1:ℚ)/3), ((2:ℕ), (1:ℚ)/5)],
            r.quality ≤ minCircDist z.2 1)
        ∧ r.error_percent = r.quality / 1 * 100)
      ∧ montecarlo.find_best_resonance [] 1 = none) :=
  ⟨⟨by simp, by norm_num⟩,
    find_best_resonance_is_min [((1:ℕ), (1:ℚ)/3), ((2:ℕ), (1:ℚ)/5)] 1
      (by simp) (by norm_num)⟩

/-- C10: in scanner_zeta's `enhanced_statistical_analysis`, the validity
guard runs only after `expected_random` has been computed by dividing by the
constant: for nonempty inputs every negative constant returns `None`, while a
zero constant reaches the division and raises `ZeroDivisionError`. -/
theorem scanner_guard_after_division
    (zeros : List (ℕ × ℚ)) (res : List (ℕ × ℚ × ℚ × ℚ)) (c t : ℚ)
    (hz : zeros ≠ []) (hr : res ≠ []) :
    (c < 0 →
      scanner_zeta.enhanced_statistical_analysis zeros res c t =
        Except.ok none)
    ∧ (c = 0 →
      scanner_zeta.enhanced_statistical_analysis zeros res c t =
        Except.error PyError.zeroDivisionError) := by
  have hzl : zeros.length ≠ 0 := fun h => hz (List.length_eq_zero.mp h)
  have hrl : res.length ≠ 0 := fun h => hr (List.length_eq_zero.mp h)
  constructor
  · intro hneg
    unfold scanner_zeta.enhanced_statistical_analysis
    rw [if_neg (by push_neg; exact ⟨hzl, hrl⟩), if_neg (ne_of_lt hneg),
      if_pos (Or.inl (le_of_lt hneg))]
  · intro h0
    unfold scanner_zeta.enhanced_statistical_analysis
    rw [if_neg (by push_neg; exact ⟨hzl, hrl⟩), if_pos h0]

/-- Witness for C10 at one zero, one resonance and constant `-1`. -/
theorem scanner_guard_after_division_witness :
    (([((1:ℕ), (1:ℚ))] : List (ℕ × ℚ)) ≠ []
      ∧ ([((1:ℕ), (1:ℚ), (0:ℚ), (1:ℚ))] : List (ℕ × ℚ × ℚ × ℚ)) ≠ [])
    ∧ (((-1:ℚ) < 0 →
        scanner_zeta.enhanced_statistical_analysis [((1:ℕ), (1:ℚ))]
            [((1:ℕ), (1:ℚ), (0:ℚ), (1:ℚ))] (-1) 1 = Except.ok none)
      ∧ ((-1:ℚ) = 0 →
        scanner_zeta.enhanced_statistical_analysis [((1:ℕ), (1:ℚ))]
            [((1:ℕ), (1:ℚ), (0:ℚ), (1:ℚ))] (-1) 1 =
          Except.error PyError.zeroDivisionError)) :=
  ⟨⟨by simp, by simp⟩,
    scanner_guard_after_division [((1:ℕ), (1:ℚ))]
      [((1:ℕ), (1:ℚ), (0:ℚ), (1:ℚ))] (-1) 1 (by simp) (by simp)⟩

end RiemannZerosAnalysis
